import Mathlib

/-!
Verification of the cg_req REST-method core: a shallow embedding of
`src/rest.rs`, `src/hyper.rs` and the executor / validator part of
`src/main.rs`, together with theorems settling the specification claims.

Modelling conventions:
* Rust `u16`/`u32`/`u64` counters are `Nat` (no arithmetic in the embedded
  code can overflow on the inputs considered; additions are plain counter
  bumps).
* A Rust panic (`unwrap`/`expect`) is modelled by an `Option` result,
  where `none` means the function panicked.
* `HeaderMap` is modelled as an association list of header name/value
  strings; lookup is case-insensitive on names, first match wins, as in
  `hyper::HeaderMap::get`.
* JSON decoding (`serde_json::from_slice`) is an external collaborator and
  is passed in as an explicit `decode` function returning `Except` with an
  error message, matching `serde`'s `Result` with a displayable error.
-/

set_option autoImplicit false

/-- Constant from `main.rs`: the fixed backoff increment (`SLEEP_BETWEEN_REQUESTS_STEP_MS`). -/
def SLEEP_BETWEEN_REQUESTS_STEP_MS : Nat := 500

/-- Constant from `main.rs`: `BASE_URL`. -/
def BASE_URL : String := "https://api.coingecko.com"

/-- Modelled from the spec: the crate version baked into the identifying
`User-Agent` header by `env!("CARGO_PKG_VERSION")`; the manifest is not part
of the sources, so the concrete version string is a stand-in. The claims
depend only on the header being a fixed value. -/
def CARGO_PKG_VERSION : String := "0.1.0"

/-- Embeds `rest.rs` `RequestMethod`. -/
inductive RequestMethod where
  | Get
  | Post
deriving DecidableEq, Repr

/-- Embeds `rest.rs` `RestApiMethodParam`. -/
structure RestApiMethodParam where
  key : String
  value : Option String
  is_required : Bool
deriving DecidableEq, Repr

/-- Embeds `RestApiMethodParam::prevalue`. -/
def RestApiMethodParam.prevalue (key : String) (value : String) : RestApiMethodParam :=
  { key := key, value := some value, is_required := true }

/-- Embeds `RestApiMethodParam::required`. -/
def RestApiMethodParam.required (key : String) : RestApiMethodParam :=
  { key := key, value := none, is_required := true }

/-- Embeds `RestApiMethodParam::optional`. -/
def RestApiMethodParam.optional (key : String) : RestApiMethodParam :=
  { key := key, value := none, is_required := false }

/-- Embeds `rest.rs` `RestApiMethodRouteParam`. -/
structure RestApiMethodRouteParam where
  key : String
  value : Option String
deriving DecidableEq, Repr

/-- Embeds `rest.rs` `ValidateResponseError`. -/
inductive ValidateResponseError where
  | FailToParse (msg : String)
  | Banned (seconds : Option Nat)
  | InnerError (msg : String)
  | KeyExpired
  | UnexpectedResponseCode (code : Nat)
deriving DecidableEq, Repr

/-- The `thiserror` `Display` rendering of `ValidateResponseError`
(note the `Banned` format string carries no payload). -/
def ValidateResponseError.display : ValidateResponseError → String
  | .FailToParse msg => "ValidateResponseError::FailToParse " ++ msg
  | .Banned _ => "ValidateResponseError::Banned"
  | .InnerError msg => "ValidateResponseError::InnerError " ++ msg
  | .KeyExpired => "ValidateResponseError::KeyExpired"
  | .UnexpectedResponseCode code => "ValidateResponseError::UnexpectedResponseCode " ++ toString code

/-- Embeds `rest.rs` `ResponseTransformerError`. -/
inductive ResponseTransformerError where
  | ValidateResponseError (e : ValidateResponseError)
deriving DecidableEq, Repr

/-- The `thiserror` `Display` rendering of `ResponseTransformerError`. -/
def ResponseTransformerError.display : ResponseTransformerError → String
  | .ValidateResponseError e => "ResponseTransformerError::ValidateResponseError " ++ e.display

/-- Embeds `main.rs` `CgCoin` (rate is a decimal number, modelled as `Rat`). -/
structure CgCoin where
  id : String
  symbol : String
  name : String
  platforms : List (String × Option String)
  rate : Option Rat
deriving DecidableEq

/-- Embeds `main.rs` `CgRate`. -/
structure CgRate where
  usd : Option Rat
  last_updated_at : Option Nat
deriving DecidableEq

/-- Embeds `main.rs` `CgRates` (a `HashMap` modelled as an association list). -/
abbrev CgRates := List (String × CgRate)

/-- Embeds `rest.rs` `MethodResponse`. -/
inductive MethodResponse where
  | CgAllCoins (coins : List CgCoin)
  | CgRates (rates : CgRates)
deriving DecidableEq

/-- ASCII lowercasing of one character (header names are ASCII). -/
def lowerChar (c : Char) : Char :=
  if 65 ≤ c.toNat ∧ c.toNat ≤ 90 then Char.ofNat (c.toNat + 32) else c

/-- Case-insensitive header-name comparison, as `HeaderMap` normalizes names. -/
def headerNameEq (a b : String) : Bool :=
  a.toList.map lowerChar == b.toList.map lowerChar

/-- Case-insensitive header lookup, first match wins (`HeaderMap::get`). -/
def headersGet (headers : List (String × String)) (name : String) : Option String :=
  (headers.find? (fun kv => headerNameEq kv.1 name)).map (fun kv => kv.2)

/-- Rust `str::parse::<u32>`: optional leading `+`, then at least one ASCII
digit, rejecting anything else and values above `u32::MAX`. -/
def parseU32 (s : String) : Option Nat :=
  let cs := match s.toList with
    | '+' :: rest => rest
    | cs => cs
  if cs = [] then none
  else if cs.all Char.isDigit then
    let n := cs.foldl (fun a c => a * 10 + (c.toNat - 48)) 0
    if n ≤ 4294967295 then some n else none
  else none

/-- Embeds `main.rs` `validate_response::<M>`, generic over the JSON decoder for
`M`. Returns `none` exactly where the Rust function panics: on a 429
response whose `retry-after` header value does not parse as a `u32`
(`retry_after.to_str().unwrap().parse().unwrap()`). -/
def validate_response {M : Type} (decode : String → Except String M)
    (code : Nat) (body : String) (headers : List (String × String)) :
    Option (Except ValidateResponseError M) :=
  if code = 200 then
    match decode body with
    | .ok x => some (.ok x)
    | .error e => some (.error (.FailToParse e))
  else if code = 429 then
    match headersGet headers "retry-after" with
    | some v =>
      match parseU32 v with
      | some period_seconds => some (.error (.Banned (some period_seconds)))
      | none => none
    | none => some (.error (.Banned none))
  else
    some (.error (.UnexpectedResponseCode code))

/-- A concrete decoder used to instantiate generic statements: accepts the
empty JSON array document for `Vec<CgCoin>` and rejects everything else. -/
def decodeEmptyCoinList (body : String) : Except String (List CgCoin) :=
  if body = "[]" then .ok [] else .error "expected value"

/-- C3 -- `validate_response` classification: status 200 with a well-formed
body returns the decoded value; 200 with a malformed body returns
`FailToParse`; 429 with header `retry-after: 5` returns `Banned (some 5)`;
429 with no `retry-after` header returns `Banned none`; any other status
`s` returns `UnexpectedResponseCode s`. -/
theorem validate_response_classification {M : Type} (decode : String → Except String M)
    (body : String) (headers : List (String × String)) :
    (∀ x, decode body = .ok x → validate_response decode 200 body headers = some (.ok x))
    ∧ (∀ e, decode body = .error e →
        validate_response decode 200 body headers = some (.error (.FailToParse e)))
    ∧ (headersGet headers "retry-after" = some "5" →
        validate_response decode 429 body headers = some (.error (.Banned (some 5))))
    ∧ (headersGet headers "retry-after" = none →
        validate_response decode 429 body headers = some (.error (.Banned none)))
    ∧ (∀ s, s ≠ 200 → s ≠ 429 →
        validate_response decode s body headers = some (.error (.UnexpectedResponseCode s))) := by
  refine ⟨?_, ?_, ?_, ?_, ?_⟩
  · intro x hx
    simp [validate_response, hx]
  · intro e he
    simp [validate_response, he]
  · intro h
    have h5 : parseU32 "5" = some 5 := by decide
    simp [validate_response, h, h5]
  · intro h
    simp [validate_response, h]
  · intro s h200 h429
    simp [validate_response, h200, h429]

/-- Witness for C3 at concrete inputs. -/
theorem validate_response_classification_witness :
    validate_response decodeEmptyCoinList 200 "[]" [] = some (.ok [])
    ∧ validate_response decodeEmptyCoinList 429 "" [("retry-after", "5")]
        = some (.error (.Banned (some 5)))
    ∧ validate_response decodeEmptyCoinList 500 "" []
        = some (.error (.UnexpectedResponseCode 500)) :=
  ⟨(validate_response_classification decodeEmptyCoinList "[]" []).1 [] rfl,
   (validate_response_classification decodeEmptyCoinList "" [("retry-after", "5")]).2.2.1 (by decide),
   (validate_response_classification decodeEmptyCoinList "" []).2.2.2.2 500 (by decide) (by decide)⟩

/-- C4 counterexample -- the claim says a 429 response whose `retry-after`
header is present but unparseable yields `Banned none` without crashing;
the code instead panics (`parse().unwrap()`), modelled as `none`. -/
theorem validate_response_unparseable_panics :
    validate_response decodeEmptyCoinList 429 "" [("retry-after", "abc")] = none
    ∧ (none : Option (Except ValidateResponseError (List CgCoin)))
        ≠ some (.error (.Banned none)) := by
  exact ⟨rfl, by simp⟩

/-- C4 amended -- on a 429 response, `validate_response` returns
`Banned none` only when the `retry-after` header is absent; when the header
is present but its value does not parse as a `u32`, the function panics
(modelled as `none`) instead of returning any classified error. -/
theorem validate_response_retry_after_handling {M : Type} (decode : String → Except String M)
    (body : String) (headers : List (String × String)) :
    (headersGet headers "retry-after" = none →
      validate_response decode 429 body headers = some (.error (.Banned none)))
    ∧ (∀ v, headersGet headers "retry-after" = some v → parseU32 v = none →
        validate_response decode 429 body headers = none)
    ∧ (∀ v n, headersGet headers "retry-after" = some v → parseU32 v = some n →
        validate_response decode 429 body headers = some (.error (.Banned (some n)))) := by
  refine ⟨?_, ?_, ?_⟩
  · intro h
    simp [validate_response, h]
  · intro v hv hp
    simp [validate_response, hv, hp]
  · intro v n hv hp
    simp [validate_response, hv, hp]

/-- Witness for the amended C4 at concrete inputs. -/
theorem validate_response_retry_after_handling_witness :
    validate_response decodeEmptyCoinList 429 "" [("retry-after", "abc")] = none :=
  (validate_response_retry_after_handling decodeEmptyCoinList "" [("retry-after", "abc")]).2.1
    "abc" (by decide) (by decide)

/-- Embeds `rest.rs` `RestApiMethodParamBunch`. -/
structure RestApiMethodParamBunch where
  items : List RestApiMethodParam
deriving DecidableEq, Repr

/-- Embeds `rest.rs` `RequestConfiguratorParams`. -/
inductive RequestConfiguratorParams where
  | NextKey (key : String)
deriving DecidableEq, Repr

/-- Embeds `rest.rs` `RequestConfigurator`, which is `fn(&mut RestApiMethod, RequestConfiguratorParams)`,
a method-mutating hook. No concrete configurator value exists in the sources, so the hook
is modelled as a closed set of field mutations (enough to express any observable effect
the executor could produce by running one); `applyConfigurator` gives its semantics. -/
inductive RequestConfigurator where
  | SetBaseUrl (new_base_url : String)
deriving DecidableEq, Repr

/-- The descriptor transform: `rest.rs` `ResponseTransformer`, a function pointer
`fn(&u16, &Bytes, &HeaderMap) -> Result<MethodResponse, ResponseTransformerError>`;
`none` models a panic inside the transform (e.g. the unwraps of `validate_response`). -/
abbrev ResponseTransformer :=
  Nat → String → List (String × String) → Option (Except ResponseTransformerError MethodResponse)

/-- Embeds `rest.rs` `RestApiMethod`. -/
structure RestApiMethod where
  base_url : String
  method : RequestMethod
  url : String
  params : RestApiMethodParamBunch
  query_params : RestApiMethodParamBunch
  route_params : List RestApiMethodRouteParam
  transform_response : ResponseTransformer
  configure_request : Option RequestConfigurator

/-- Semantics of a configurator hook value as a descriptor mutation. -/
def applyConfigurator : RequestConfigurator → RestApiMethod → RestApiMethod
  | .SetBaseUrl new_base_url, m => { m with base_url := new_base_url }

/-- Fuelled core of `str::replace`: replaces each non-overlapping occurrence of
`pat` left to right. The fuel equals the subject length, which suffices for the
nonempty patterns the compiler uses (`"\x7b" ++ key ++ "\x7d"`). -/
def replaceFuel : Nat → List Char → List Char → List Char → List Char
  | _, [], _, _ => []
  | 0, s, _, _ => s
  | fuel + 1, c :: cs, pat, rep =>
    if pat.isPrefixOf (c :: cs) then rep ++ replaceFuel fuel ((c :: cs).drop pat.length) pat rep
    else c :: replaceFuel fuel cs pat rep

/-- Rust `str::replace` (for the nonempty patterns used by `compile_uri`). -/
def strReplace (s pat rep : String) : String :=
  if pat.toList = [] then s
  else String.mk (replaceFuel s.toList.length s.toList pat.toList rep.toList)

/-- The route-substitution loop at the top of `hyper.rs` `compile_uri`: fails on
the first route param with no value, otherwise replaces every occurrence of the
literal `\x7bkey\x7d` token in the path. -/
def substRouteParams : List RestApiMethodRouteParam → String → Except String String
  | [], url => .ok url
  | p :: rest, url =>
    match p.value with
    | none => .error ("compile_uri Required route param " ++ p.key ++ " not set.")
    | some val => substRouteParams rest (strReplace url ("\x7b" ++ p.key ++ "\x7d") val)

/-- A parsed URL as used by `compile_uri`: the part before the query string, and
the appended query pairs. -/
structure Url where
  base : String
  query : List (String × String)
deriving DecidableEq, Repr

/-- Modelled from the spec: `Url::parse(..).unwrap()` of the external `url`
crate ("parse as a URI; malformed base_url/path is an unrecoverable
construction bug"). Simplified to accepting an http(s)-scheme string with no
query or fragment, as produced by the templates; `none` models the panic of
the `unwrap` on a malformed input. -/
def urlParse (s : String) : Option Url :=
  if ("https://".toList.isPrefixOf s.toList || "http://".toList.isPrefixOf s.toList)
      && !(s.toList.contains '?') && !(s.toList.contains '#') then
    some { base := s, query := [] }
  else none

/-- One UTF-8 code unit sequence of a character, as byte values. -/
def utf8Bytes (c : Char) : List Nat :=
  let n := c.toNat
  if n < 128 then [n]
  else if n < 2048 then [192 + n / 64, 128 + n % 64]
  else if n < 65536 then [224 + n / 4096, 128 + (n / 64) % 64, 128 + n % 64]
  else [240 + n / 262144, 128 + (n / 4096) % 64, 128 + (n / 64) % 64, 128 + n % 64]

/-- Uppercase hexadecimal digit. -/
def hexDigitUpper (n : Nat) : Char :=
  if n < 10 then Char.ofNat (48 + n) else Char.ofNat (55 + n)

/-- Percent-encoding of one byte, uppercase hex, as the `url` crate emits. -/
def percentByte (b : Nat) : String :=
  String.mk ['%', hexDigitUpper (b / 16), hexDigitUpper (b % 16)]

/-- Form-urlencoded (`application/x-www-form-urlencoded`) encoding of one character
(`query_pairs_mut().append_pair` of the `url` crate): alphanumerics and
`*-._` kept, space becomes `+`, anything else percent-encoded per UTF-8 byte. -/
def formUrlencodeChar (c : Char) : String :=
  if c.isAlphanum || c = '*' || c = '-' || c = '.' || c = '_' then String.mk [c]
  else if c = ' ' then "+"
  else String.join ((utf8Bytes c).map percentByte)

/-- Form-urlencoded encoding of a string. -/
def formUrlencode (s : String) : String :=
  String.join (s.toList.map formUrlencodeChar)

/-- Embeds `Url::to_string`: the base followed by the encoded query pairs in order. -/
def Url.to_string (u : Url) : String :=
  if u.query = [] then u.base
  else u.base ++ "?" ++ String.intercalate "&"
    (u.query.map (fun kv => formUrlencode kv.1 ++ "=" ++ formUrlencode kv.2))

/-- A query-appending loop of `compile_uri` (`query_pairs_mut().append_pair`
for each value-bearing entry, failing on a required entry with no value). -/
def appendPairs : List RestApiMethodParam → Url → Except String Url
  | [], u => .ok u
  | p :: rest, u =>
    match p.value with
    | some value => appendPairs rest { u with query := u.query ++ [(p.key, value)] }
    | none =>
      if p.is_required then .error ("compile_uri Required param " ++ p.key ++ " not set.")
      else appendPairs rest u

/-- The verb-dependent stage of `compile_uri`: body-style `params` are merged
into the query string only for the bodyless `Get` verb. -/
def paramsStage (m : RestApiMethod) (u : Url) : Except String Url :=
  match m.method with
  | .Get => appendPairs m.params.items u
  | .Post => .ok u

/-- Embeds `hyper.rs` `compile_uri`; `none` models the panic of the `Url::parse`
unwrap; classified failures are returned as `Except.error` strings. -/
def compile_uri (m : RestApiMethod) : Option (Except String String) :=
  match substRouteParams m.route_params m.url with
  | .error e => some (.error e)
  | .ok url =>
    match urlParse (m.base_url ++ url) with
    | none => none
    | some u0 =>
      match paramsStage m u0 with
      | .error e => some (.error e)
      | .ok u1 =>
        match appendPairs m.query_params.items u1 with
        | .error e => some (.error e)
        | .ok u2 => some (.ok u2.to_string)

/-- The value-bearing entries of a param list, as key/value pairs in
declaration order. -/
def presentPairs (l : List RestApiMethodParam) : List (String × String) :=
  l.filterMap (fun p => p.value.map (fun v => (p.key, v)))

/-- A transform used by descriptors whose compilation (not execution) is
under study; it classifies everything as a `KeyExpired` failure. -/
def noop_transform : ResponseTransformer :=
  fun _ _ _ => some (.error (.ValidateResponseError .KeyExpired))

/-- The descriptor of the spec's route scenario: template `/x/\x7bid\x7d`
with route param `id = "42"`. -/
def routeExampleMethod : RestApiMethod :=
  { base_url := "https://h", method := .Get, url := "/x/\x7bid\x7d",
    params := ⟨[]⟩, query_params := ⟨[]⟩,
    route_params := [{ key := "id", value := some "42" }],
    transform_response := noop_transform, configure_request := none }

/-- The same descriptor with `id` unset. -/
def routeMissingMethod : RestApiMethod :=
  { routeExampleMethod with route_params := [{ key := "id", value := none }] }

/-- The descriptor of the spec's query-order scenario: params declared
`a=1` then `b=2`. -/
def queryExampleMethod : RestApiMethod :=
  { base_url := "https://h", method := .Get, url := "/p",
    params := ⟨[RestApiMethodParam.prevalue "a" "1", RestApiMethodParam.prevalue "b" "2"]⟩,
    query_params := ⟨[]⟩, route_params := [],
    transform_response := noop_transform, configure_request := none }

/-- A `Post` descriptor with the same pairs declared as explicit
`query_params`: the query string is appended for body-bearing verbs too. -/
def postQueryExampleMethod : RestApiMethod :=
  { base_url := "https://h", method := .Post, url := "/p",
    params := ⟨[]⟩,
    query_params := ⟨[RestApiMethodParam.prevalue "a" "1", RestApiMethodParam.prevalue "b" "2"]⟩,
    route_params := [],
    transform_response := noop_transform, configure_request := none }

/-- Route substitution fails, naming an unset key, whenever some route param
has no value. -/
theorem substRouteParams_err (l : List RestApiMethodRouteParam) (u : String)
    (h : ∃ p ∈ l, p.value = none) :
    ∃ k, substRouteParams l u
        = .error ("compile_uri Required route param " ++ k ++ " not set.")
      ∧ ∃ p ∈ l, p.key = k ∧ p.value = none := by
  induction l generalizing u with
  | nil => rcases h with ⟨p, hp, _⟩; cases hp
  | cons p rest ih =>
    cases hv : p.value with
    | none =>
      exact ⟨p.key, by simp [substRouteParams, hv],
        p, List.mem_cons_self p rest, rfl, hv⟩
    | some v =>
      rcases h with ⟨q, hq, hqv⟩
      rcases List.mem_cons.mp hq with rfl | hq'
      · rw [hv] at hqv; cases hqv
      · rcases ih (strReplace u ("\x7b" ++ p.key ++ "\x7d") v) ⟨q, hq', hqv⟩ with
          ⟨k, hk, q', hq'', hkq, hqv'⟩
        exact ⟨k, by simp [substRouteParams, hv, hk],
          q', List.mem_cons_of_mem p hq'', hkq, hqv'⟩

/-- When no entry is required-but-unset, the query-append loop succeeds and
appends exactly the value-bearing pairs in declaration order. -/
theorem appendPairs_ok (l : List RestApiMethodParam) (u : Url)
    (h : ∀ p ∈ l, p.value = none → p.is_required = false) :
    appendPairs l u = .ok ⟨u.base, u.query ++ presentPairs l⟩ := by
  induction l generalizing u with
  | nil => simp [appendPairs, presentPairs]
  | cons p rest ih =>
    cases hv : p.value with
    | some v =>
      have hrest := ih { u with query := u.query ++ [(p.key, v)] }
        (fun q hq => h q (List.mem_cons_of_mem p hq))
      simp [appendPairs, hv, hrest, presentPairs, List.filterMap_cons]
    | none =>
      have hnr := h p (List.mem_cons_self p rest) hv
      have hrest := ih u (fun q hq => h q (List.mem_cons_of_mem p hq))
      simp [appendPairs, hv, hnr, hrest, presentPairs, List.filterMap_cons]

/-- The query-append loop fails, naming a required-but-unset key, whenever
some entry is required but carries no value. -/
theorem appendPairs_err (l : List RestApiMethodParam) (u : Url)
    (h : ∃ p ∈ l, p.is_required = true ∧ p.value = none) :
    ∃ k, appendPairs l u = .error ("compile_uri Required param " ++ k ++ " not set.")
      ∧ ∃ p ∈ l, p.key = k ∧ p.is_required = true ∧ p.value = none := by
  induction l generalizing u with
  | nil => rcases h with ⟨p, hp, _⟩; cases hp
  | cons p rest ih =>
    cases hv : p.value with
    | none =>
      cases hr : p.is_required with
      | true =>
        exact ⟨p.key, by simp [appendPairs, hv, hr],
          p, List.mem_cons_self p rest, rfl, hr, hv⟩
      | false =>
        rcases h with ⟨q, hq, hqr, hqv⟩
        rcases List.mem_cons.mp hq with rfl | hq'
        · rw [hr] at hqr; cases hqr
        · rcases ih u ⟨q, hq', hqr, hqv⟩ with ⟨k, hk, q', hq'', hkq, hqr', hqv'⟩
          exact ⟨k, by simp [appendPairs, hv, hr, hk],
            q', List.mem_cons_of_mem p hq'', hkq, hqr', hqv'⟩
    | some v =>
      rcases h with ⟨q, hq, hqr, hqv⟩
      rcases List.mem_cons.mp hq with rfl | hq'
      · rw [hv] at hqv; cases hqv
      · rcases ih { u with query := u.query ++ [(p.key, v)] } ⟨q, hq', hqr, hqv⟩ with
          ⟨k, hk, q', hq'', hkq, hqr', hqv'⟩
        exact ⟨k, by simp [appendPairs, hv, hk],
          q', List.mem_cons_of_mem p hq'', hkq, hqr', hqv'⟩

/-- C5 -- `compile_uri` and route params: whenever some route param has no
value, compilation fails with the `MissingRouteParam`-style error naming an
unset route key and returns no partially substituted URI; with every route
param set, every occurrence of the `\x7bkey\x7d` token is substituted, so the
template `/x/\x7bid\x7d` with `id = "42"` compiles to a URI ending in `/x/42`. -/
theorem compile_uri_route_params :
    (∀ m : RestApiMethod, (∃ p ∈ m.route_params, p.value = none) →
      ∃ k, compile_uri m
          = some (.error ("compile_uri Required route param " ++ k ++ " not set."))
        ∧ ∃ p ∈ m.route_params, p.key = k ∧ p.value = none)
    ∧ compile_uri routeExampleMethod = some (.ok "https://h/x/42")
    ∧ ("/x/42".toList.isSuffixOf "https://h/x/42".toList) = true := by
  refine ⟨?_, rfl, by decide⟩
  intro m h
  rcases substRouteParams_err m.route_params m.url h with ⟨k, hk, p, hp, hkq, hpv⟩
  exact ⟨k, by simp [compile_uri, hk], p, hp, hkq, hpv⟩

/-- Witness for C5: the concrete descriptor with `id` unset fails naming `id`. -/
theorem compile_uri_route_params_witness :
    compile_uri routeMissingMethod
      = some (.error "compile_uri Required route param id not set.") := by
  rcases compile_uri_route_params.1 routeMissingMethod
      ⟨{ key := "id", value := none }, by decide, rfl⟩ with ⟨k, hk, p, hp, hkey, hval⟩
  have hp' : p = { key := "id", value := none } := by
    simpa [routeMissingMethod, routeExampleMethod] using hp
  subst hp'
  rw [← hkey] at hk
  exact hk

/-- C6 -- `compile_uri` and query parameters: for `Get` descriptors every
value-bearing `params` entry is appended as a query parameter and a
required-but-unset entry fails naming its key; for descriptors of any verb
(the fourth conjunct has no verb hypothesis, and the `Post` instance is
proved concretely) every value-bearing `query_params` entry is appended
under the same failure rule; appended pairs appear in declaration order,
`params` before `query_params`, so params `a=1` then `b=2` yield a URI
ending in `?a=1&b=2`. -/
theorem compile_uri_query_order :
    (∀ (m : RestApiMethod) (url : String) (u0 : Url),
      m.method = RequestMethod.Get →
      substRouteParams m.route_params m.url = .ok url →
      urlParse (m.base_url ++ url) = some u0 →
      (∀ p ∈ m.params.items, p.value = none → p.is_required = false) →
      (∀ p ∈ m.query_params.items, p.value = none → p.is_required = false) →
      compile_uri m = some (.ok (Url.to_string
        ⟨u0.base, (u0.query ++ presentPairs m.params.items)
          ++ presentPairs m.query_params.items⟩)))
    ∧ (∀ (m : RestApiMethod) (url : String) (u0 : Url),
      m.method = RequestMethod.Get →
      substRouteParams m.route_params m.url = .ok url →
      urlParse (m.base_url ++ url) = some u0 →
      (∃ p ∈ m.params.items, p.is_required = true ∧ p.value = none) →
      ∃ k, compile_uri m
          = some (.error ("compile_uri Required param " ++ k ++ " not set."))
        ∧ ∃ p ∈ m.params.items, p.key = k ∧ p.is_required = true ∧ p.value = none)
    ∧ (∀ (m : RestApiMethod) (url : String) (u0 u1 : Url),
      substRouteParams m.route_params m.url = .ok url →
      urlParse (m.base_url ++ url) = some u0 →
      paramsStage m u0 = .ok u1 →
      (∃ p ∈ m.query_params.items, p.is_required = true ∧ p.value = none) →
      ∃ k, compile_uri m
          = some (.error ("compile_uri Required param " ++ k ++ " not set."))
        ∧ ∃ p ∈ m.query_params.items, p.key = k ∧ p.is_required = true ∧ p.value = none)
    ∧ (∀ (m : RestApiMethod) (url : String) (u0 u1 : Url),
      substRouteParams m.route_params m.url = .ok url →
      urlParse (m.base_url ++ url) = some u0 →
      paramsStage m u0 = .ok u1 →
      (∀ p ∈ m.query_params.items, p.value = none → p.is_required = false) →
      compile_uri m = some (.ok (Url.to_string
        ⟨u1.base, u1.query ++ presentPairs m.query_params.items⟩)))
    ∧ compile_uri postQueryExampleMethod = some (.ok "https://h/p?a=1&b=2")
    ∧ compile_uri queryExampleMethod = some (.ok "https://h/p?a=1&b=2")
    ∧ ("?a=1&b=2".toList.isSuffixOf "https://h/p?a=1&b=2".toList) = true := by
  refine ⟨?_, ?_, ?_, ?_, rfl, rfl, by decide⟩
  · intro m url u0 hm hs hp hparams hquery
    have h1 : appendPairs m.params.items u0
        = .ok ⟨u0.base, u0.query ++ presentPairs m.params.items⟩ :=
      appendPairs_ok m.params.items u0 hparams
    have h2 : appendPairs m.query_params.items
        ⟨u0.base, u0.query ++ presentPairs m.params.items⟩
        = .ok ⟨u0.base, (u0.query ++ presentPairs m.params.items)
            ++ presentPairs m.query_params.items⟩ :=
      appendPairs_ok m.query_params.items _ hquery
    simp [compile_uri, hs, hp, paramsStage, hm, h1, h2]
  · intro m url u0 hm hs hp h
    rcases appendPairs_err m.params.items u0 h with ⟨k, hk, p, hmem, hkq, hkr, hkv⟩
    exact ⟨k, by simp [compile_uri, hs, hp, paramsStage, hm, hk], p, hmem, hkq, hkr, hkv⟩
  · intro m url u0 u1 hs hp hu1 h
    rcases appendPairs_err m.query_params.items u1 h with ⟨k, hk, p, hmem, hkq, hkr, hkv⟩
    exact ⟨k, by simp [compile_uri, hs, hp, hu1, hk], p, hmem, hkq, hkr, hkv⟩
  · intro m url u0 u1 hs hp hu1 hquery
    have h2 : appendPairs m.query_params.items u1
        = .ok ⟨u1.base, u1.query ++ presentPairs m.query_params.items⟩ :=
      appendPairs_ok m.query_params.items u1 hquery
    simp [compile_uri, hs, hp, hu1, h2]

/-- Witness for C6: the concrete `a=1`,`b=2` descriptor, through the general
statement, compiles to the declared-order query string. -/
theorem compile_uri_query_order_witness :
    compile_uri queryExampleMethod = some (.ok "https://h/p?a=1&b=2") :=
  compile_uri_query_order.1 queryExampleMethod "/p" ⟨"https://h/p", []⟩
    rfl rfl rfl (by decide) (by decide)

/-- The filtering loop of `impl Serialize for RestApiMethodParamBunch`:
collects the value-bearing entries in order and fails at the first
required-but-unset entry (`Error::custom`). -/
def filterParams : List RestApiMethodParam → Except String (List RestApiMethodParam)
  | [] => .ok []
  | p :: rest =>
    if p.value.isSome then (filterParams rest).map (fun l => p :: l)
    else if p.is_required then .error ("Required param " ++ p.key ++ " is not set.")
    else filterParams rest

/-- Embeds `impl Serialize for RestApiMethodParamBunch`, with the serializer output
modelled as the emitted key/value fields in order (`serialize_field`); the
`param.value.as_ref().unwrap()` is safe since only value-bearing entries
survive the filter, hence the default is never taken. -/
def serializeBunch (b : RestApiMethodParamBunch) : Except String (List (String × String)) :=
  (filterParams b.items).map (fun l => l.map (fun p => (p.key, p.value.getD "")))

/-- Lowercase hexadecimal digit. -/
def hexDigitLower (n : Nat) : Char :=
  if n < 10 then Char.ofNat (48 + n) else Char.ofNat (87 + n)

/-- JSON string escaping of one character, as `serde_json` emits
(quote, backslash, the short control escapes, `\u00XX` for other controls). -/
def jsonEscapeChar (c : Char) : String :=
  if c = '"' then "\\\""
  else if c = '\\' then "\\\\"
  else if c = '\n' then "\\n"
  else if c = '\r' then "\\r"
  else if c = '\t' then "\\t"
  else if c.toNat = 8 then "\\b"
  else if c.toNat = 12 then "\\f"
  else if c.toNat < 32 then
    "\\u00" ++ String.mk [hexDigitLower (c.toNat / 16), hexDigitLower (c.toNat % 16)]
  else String.mk [c]

/-- A JSON string literal. -/
def jsonString (s : String) : String :=
  "\"" ++ String.join (s.toList.map jsonEscapeChar) ++ "\""

/-- The JSON object document `serde_json::to_string` produces from the
emitted fields of the bunch serializer. -/
def jsonRender (pairs : List (String × String)) : String :=
  "\x7b" ++ String.intercalate ","
    (pairs.map (fun kv => jsonString kv.1 ++ ":" ++ jsonString kv.2)) ++ "\x7d"

/-- Embeds `rest.rs` `RestApiMethod::convert_params_into_json_string`:
`Ok(serde_json::to_string(&self.params).unwrap())` — a failing
serialization panics through the `unwrap` (modelled as `none`) and the
declared `Err` variant is never built. -/
def convert_params_into_json_string (m : RestApiMethod) : Option (Except String String) :=
  match serializeBunch m.params with
  | .ok pairs => some (.ok (jsonRender pairs))
  | .error _ => none

/-- The filter loop fails, naming a required-but-unset key, whenever some
entry is required but carries no value. -/
theorem filterParams_err (l : List RestApiMethodParam)
    (h : ∃ p ∈ l, p.is_required = true ∧ p.value = none) :
    ∃ k, filterParams l = .error ("Required param " ++ k ++ " is not set.")
      ∧ ∃ p ∈ l, p.key = k ∧ p.is_required = true ∧ p.value = none := by
  induction l with
  | nil => rcases h with ⟨p, hp, _⟩; cases hp
  | cons p rest ih =>
    cases hv : p.value with
    | none =>
      cases hr : p.is_required with
      | true =>
        exact ⟨p.key, by simp [filterParams, hv, hr],
          p, List.mem_cons_self p rest, rfl, hr, hv⟩
      | false =>
        rcases h with ⟨q, hq, hqr, hqv⟩
        rcases List.mem_cons.mp hq with rfl | hq'
        · rw [hr] at hqr; cases hqr
        · rcases ih ⟨q, hq', hqr, hqv⟩ with ⟨k, hk, q', hq'', hkq, hqr', hqv'⟩
          exact ⟨k, by simp [filterParams, hv, hr, hk],
            q', List.mem_cons_of_mem p hq'', hkq, hqr', hqv'⟩
    | some v =>
      rcases h with ⟨q, hq, hqr, hqv⟩
      rcases List.mem_cons.mp hq with rfl | hq'
      · rw [hv] at hqv; cases hqv
      · rcases ih ⟨q, hq', hqr, hqv⟩ with ⟨k, hk, q', hq'', hkq, hqr', hqv'⟩
        exact ⟨k, by simp [filterParams, hv, hk, Except.map],
          q', List.mem_cons_of_mem p hq'', hkq, hqr', hqv'⟩

/-- When no entry is required-but-unset, the filter loop keeps exactly the
value-bearing entries, in order. -/
theorem filterParams_ok (l : List RestApiMethodParam)
    (h : ∀ p ∈ l, p.value = none → p.is_required = false) :
    filterParams l = .ok (l.filter (fun p => p.value.isSome)) := by
  induction l with
  | nil => simp [filterParams]
  | cons p rest ih =>
    have hrest := ih (fun q hq => h q (List.mem_cons_of_mem p hq))
    cases hv : p.value with
    | some v => simp [filterParams, hv, hrest, List.filter_cons, Except.map]
    | none =>
      have hnr := h p (List.mem_cons_self p rest) hv
      simp [filterParams, hv, hnr, hrest, List.filter_cons]

/-- Filtered value-bearing entries serialize to exactly the present
key/value pairs. -/
theorem filtered_map_eq_presentPairs (l : List RestApiMethodParam) :
    (l.filter (fun p => p.value.isSome)).map (fun p => (p.key, p.value.getD ""))
      = presentPairs l := by
  induction l with
  | nil => simp [presentPairs]
  | cons p rest ih =>
    cases hv : p.value with
    | some v => simp [List.filter_cons, hv, presentPairs, List.filterMap_cons, ih]
    | none => simp [List.filter_cons, hv, presentPairs, List.filterMap_cons, ih]

/-- C7 -- the bunch serializer yields a flat key-to-value mapping omitting
every unset optional entry (none emitted as null or empty), and fails with
`Required param k is not set.` naming a required-but-unset key whenever any
required entry has no value. -/
theorem serializeBunch_spec (b : RestApiMethodParamBunch) :
    ((∀ p ∈ b.items, p.value = none → p.is_required = false) →
      serializeBunch b = .ok (presentPairs b.items))
    ∧ ((∃ p ∈ b.items, p.is_required = true ∧ p.value = none) →
      ∃ k, serializeBunch b = .error ("Required param " ++ k ++ " is not set.")
        ∧ ∃ p ∈ b.items, p.key = k ∧ p.is_required = true ∧ p.value = none) := by
  constructor
  · intro h
    simp [serializeBunch, filterParams_ok b.items h, filtered_map_eq_presentPairs, Except.map]
  · intro h
    rcases filterParams_err b.items h with ⟨k, hk, p, hp, hkq, hkr, hkv⟩
    exact ⟨k, by simp [serializeBunch, hk, Except.map], p, hp, hkq, hkr, hkv⟩

/-- Witness for C7: a bunch with an unset optional entry (omitted) and set
entries, and a bunch with the required entry `ids` unset (fails naming `ids`). -/
theorem serializeBunch_spec_witness :
    serializeBunch ⟨[RestApiMethodParam.prevalue "a" "1", RestApiMethodParam.optional "x",
        RestApiMethodParam.prevalue "b" "2"]⟩ = .ok [("a", "1"), ("b", "2")]
    ∧ serializeBunch ⟨[RestApiMethodParam.prevalue "a" "1", RestApiMethodParam.required "ids"]⟩
        = .error "Required param ids is not set." := by
  constructor
  · exact (serializeBunch_spec ⟨[RestApiMethodParam.prevalue "a" "1",
      RestApiMethodParam.optional "x", RestApiMethodParam.prevalue "b" "2"]⟩).1 (by decide)
  · rcases (serializeBunch_spec ⟨[RestApiMethodParam.prevalue "a" "1",
        RestApiMethodParam.required "ids"]⟩).2
        ⟨RestApiMethodParam.required "ids", by decide, rfl, rfl⟩ with ⟨k, hk, p, hp, hkq, _, hpv⟩
    have hp' : p = RestApiMethodParam.required "ids" := by
      rcases List.mem_cons.mp hp with rfl | hp2
      · exfalso
        simp [RestApiMethodParam.prevalue] at hpv
      · simpa using hp2
    subst hp'
    rw [← hkq] at hk
    exact hk

/-- C10 -- `convert_params_into_json_string` is declared to return a
`Result` but panics (unwrap of the failing serialization, modelled `none`)
for every param set with a required-but-unset entry; it returns `Ok` with
the JSON document exactly when serialization succeeds, and its `Err`
variant is never produced. -/
theorem convert_params_never_err (m : RestApiMethod) :
    ((∃ p ∈ m.params.items, p.is_required = true ∧ p.value = none) →
      convert_params_into_json_string m = none)
    ∧ (∀ pairs, serializeBunch m.params = .ok pairs →
      convert_params_into_json_string m = some (.ok (jsonRender pairs)))
    ∧ (∀ e, convert_params_into_json_string m ≠ some (.error e)) := by
  refine ⟨?_, ?_, ?_⟩
  · intro h
    rcases filterParams_err m.params.items h with ⟨k, hk, _⟩
    simp [convert_params_into_json_string, serializeBunch, hk, Except.map]
  · intro pairs hp
    simp [convert_params_into_json_string, hp]
  · intro e
    cases hs : serializeBunch m.params with
    | ok pairs => simp [convert_params_into_json_string, hs]
    | error msg => simp [convert_params_into_json_string, hs]

/-- A descriptor whose `params` contain a required-but-unset entry. -/
def missingRequiredMethod : RestApiMethod :=
  { queryExampleMethod with params := ⟨[RestApiMethodParam.required "ids"]⟩ }

/-- Witness for C10: converting a param set with the required `ids` entry
unset panics rather than returning `Err`. -/
theorem convert_params_never_err_witness :
    convert_params_into_json_string missingRequiredMethod = none :=
  (convert_params_never_err missingRequiredMethod).1
    ⟨RestApiMethodParam.required "ids", by decide, rfl, rfl⟩

/-- Embeds `rest.rs` `RestApiMethodBuilder`. -/
structure RestApiMethodBuilder where
  base_url : Option String
  method : RequestMethod
  url : Option String
  params : List RestApiMethodParam
  query_params : List RestApiMethodParam
  route_params : List RestApiMethodRouteParam
  transform_response : Option ResponseTransformer
  configure_request : Option RequestConfigurator

/-- Embeds `RestApiMethodBuilder::new`. -/
def RestApiMethodBuilder.new : RestApiMethodBuilder :=
  { base_url := none, method := .Get, url := none, params := [], query_params := [],
    route_params := [], transform_response := none, configure_request := none }

/-- Embeds `RestApiMethodBuilder::set_base_url`. -/
def RestApiMethodBuilder.set_base_url (b : RestApiMethodBuilder) (base_url : String) :
    RestApiMethodBuilder :=
  { b with base_url := some base_url }

/-- Embeds `RestApiMethodBuilder::set_method`. -/
def RestApiMethodBuilder.set_method (b : RestApiMethodBuilder) (method : RequestMethod) :
    RestApiMethodBuilder :=
  { b with method := method }

/-- Embeds `RestApiMethodBuilder::set_url`. -/
def RestApiMethodBuilder.set_url (b : RestApiMethodBuilder) (url : String) :
    RestApiMethodBuilder :=
  { b with url := some url }

/-- Embeds `RestApiMethodBuilder::add_route_param`. -/
def RestApiMethodBuilder.add_route_param (b : RestApiMethodBuilder)
    (param : RestApiMethodRouteParam) : RestApiMethodBuilder :=
  { b with route_params := b.route_params ++ [param] }

/-- Embeds `RestApiMethodBuilder::add_param`. -/
def RestApiMethodBuilder.add_param (b : RestApiMethodBuilder)
    (param : RestApiMethodParam) : RestApiMethodBuilder :=
  { b with params := b.params ++ [param] }

/-- Embeds `RestApiMethodBuilder::add_query_param`. -/
def RestApiMethodBuilder.add_query_param (b : RestApiMethodBuilder)
    (param : RestApiMethodParam) : RestApiMethodBuilder :=
  { b with query_params := b.query_params ++ [param] }

/-- Embeds `RestApiMethodBuilder::set_transform_response`. -/
def RestApiMethodBuilder.set_transform_response (b : RestApiMethodBuilder)
    (transform_response : ResponseTransformer) : RestApiMethodBuilder :=
  { b with transform_response := some transform_response }

/-- Embeds `RestApiMethodBuilder::set_configure_request`. -/
def RestApiMethodBuilder.set_configure_request (b : RestApiMethodBuilder)
    (configure_request : RequestConfigurator) : RestApiMethodBuilder :=
  { b with configure_request := some configure_request }

/-- Embeds `RestApiMethodBuilder::build`: the three `expect`s panic (modelled
`none`) when `base_url`, `url` or `transform_response` is unset; otherwise
the immutable descriptor snapshot is produced. -/
def RestApiMethodBuilder.build (b : RestApiMethodBuilder) : Option RestApiMethod :=
  match b.base_url, b.url, b.transform_response with
  | some base_url, some url, some transform_response =>
    some { base_url := base_url, method := b.method, url := url,
           params := ⟨b.params⟩, query_params := ⟨b.query_params⟩,
           route_params := b.route_params, transform_response := transform_response,
           configure_request := b.configure_request }
  | _, _, _ => none

/-- The builder of the spec's scenario: base url and path set but
`set_transform_response` never called. -/
def builderNoTransform : RestApiMethodBuilder :=
  (RestApiMethodBuilder.new.set_base_url BASE_URL).set_url "/api/v3/coins/list"

/-- C8 -- `build()` fails (panic-equivalent, returning no partial
descriptor) exactly when `base_url`, the path template or
`transform_response` is unset; in particular a builder on which
`set_transform_response` was never called fails deterministically. -/
theorem builder_build_total_gate :
    (∀ b : RestApiMethodBuilder,
      b.build = none ↔ (b.base_url = none ∨ b.url = none ∨ b.transform_response = none))
    ∧ builderNoTransform.build = none := by
  constructor
  · intro b
    cases hb : b.base_url with
    | none => simp [RestApiMethodBuilder.build, hb]
    | some base_url =>
      cases hu : b.url with
      | none => simp [RestApiMethodBuilder.build, hb, hu]
      | some url =>
        cases ht : b.transform_response with
        | none => simp [RestApiMethodBuilder.build, hb, hu, ht]
        | some tr => simp [RestApiMethodBuilder.build, hb, hu, ht]
  · rfl

/-- One transport response: status, headers, full body
(`res.status()`, `res.headers()`, `body::to_bytes(res.into_body())`). -/
structure HttpResponse where
  status : Nat
  headers : List (String × String)
  body : String
deriving DecidableEq, Repr

/-- One outbound request as observed by the transport. -/
structure SentRequest where
  uri : String
  headers : List (String × String)
  body : String
deriving DecidableEq, Repr

/-- Embeds `hyper.rs` `create_request_builder`: the fixed identifying header
attached to every outbound request. -/
def fixedRequestHeaders : List (String × String) :=
  [("User-Agent", "cg_req/" ++ CARGO_PKG_VERSION)]

/-- Observable outcome of one `request` call: the returned result, the
final value of the shared backoff counter, the sleeps performed (seconds),
and the outbound requests sent, in order. -/
structure ExecResult where
  result : Except String MethodResponse
  backoff : Nat
  sleeps : List Nat
  sent : List SentRequest

/-- Embeds `main.rs` `request` — the retry loop, driven by a finite trace of
transport responses (one per attempt). `none` models a panic
(`Url::parse` / transform unwraps) or an exhausted trace, where the Rust
loop would still be awaiting the transport. On a `Banned` classification
with a known duration the shared counter is raised by the fixed step, a
sleep of `seconds + 1` is recorded, and the same descriptor is re-attempted
on the remaining trace; every other outcome is terminal. -/
def request (m : RestApiMethod) (sleep_between_requests_ms : Nat) :
    List HttpResponse → Option ExecResult
  | [] => none
  | r :: rest =>
    match compile_uri m with
    | none => none
    | some (.error e) => some ⟨.error e, sleep_between_requests_ms, [], []⟩
    | some (.ok uri) =>
      match m.transform_response r.status r.body r.headers with
      | none => none
      | some (.ok x) =>
        some ⟨.ok x, sleep_between_requests_ms, [], [⟨uri, fixedRequestHeaders, ""⟩]⟩
      | some (.error e) =>
        match e with
        | .ValidateResponseError ve =>
          match ve with
          | .Banned (some seconds) =>
            (request m (sleep_between_requests_ms + SLEEP_BETWEEN_REQUESTS_STEP_MS) rest).map
              (fun res => ⟨res.result, res.backoff, (seconds + 1) :: res.sleeps,
                ⟨uri, fixedRequestHeaders, ""⟩ :: res.sent⟩)
          | .Banned none =>
            some ⟨.error ("Banned for unknown time: " ++ e.display),
              sleep_between_requests_ms, [], [⟨uri, fixedRequestHeaders, ""⟩]⟩
          | _ =>
            some ⟨.error ("Unhandled Validate Response Error: " ++ e.display),
              sleep_between_requests_ms, [], [⟨uri, fixedRequestHeaders, ""⟩]⟩

/-- The transform of the all-coins template
(`build_all_coins_rest_api_method_builder_template`), instantiated with
the concrete decoder. -/
def all_coins_transform : ResponseTransformer := fun code body headers =>
  match validate_response decodeEmptyCoinList code body headers with
  | some (.ok x) => some (.ok (.CgAllCoins x))
  | some (.error e) => some (.error (.ValidateResponseError e))
  | none => none

/-- A concrete descriptor wired to the all-coins transform, used to run the
spec's executor scenarios. -/
def allCoinsScenarioMethod : RestApiMethod :=
  { base_url := "https://h", method := .Get, url := "/p",
    params := ⟨[]⟩, query_params := ⟨[]⟩, route_params := [],
    transform_response := all_coins_transform, configure_request := none }

/-- Scenario response: 429 carrying `retry-after: 2`. -/
def resp429Retry2 : HttpResponse := ⟨429, [("retry-after", "2")], ""⟩

/-- Scenario response: 200 with a well-formed body. -/
def resp200Empty : HttpResponse := ⟨200, [], "[]"⟩

/-- Scenario response: 429 with no `retry-after` header. -/
def resp429NoHeader : HttpResponse := ⟨429, [], ""⟩

/-- C1 -- on a `Banned` classification with known duration `n` the executor
raises the shared backoff counter by exactly one fixed step, records a
sleep of `n + 1` seconds, and re-attempts the same descriptor; on the
spec's transport (429 with `retry-after: 2` once, then 200) it returns the
eventual success with the shared baseline raised by exactly one step. -/
theorem request_banned_known_duration :
    (∀ (m : RestApiMethod) (b : Nat) (r : HttpResponse) (rest : List HttpResponse)
        (uri : String) (n : Nat),
      compile_uri m = some (.ok uri) →
      m.transform_response r.status r.body r.headers
        = some (.error (.ValidateResponseError (.Banned (some n)))) →
      request m b (r :: rest)
        = (request m (b + SLEEP_BETWEEN_REQUESTS_STEP_MS) rest).map
            (fun res => ⟨res.result, res.backoff, (n + 1) :: res.sleeps,
              ⟨uri, fixedRequestHeaders, ""⟩ :: res.sent⟩))
    ∧ (∀ b : Nat,
      request allCoinsScenarioMethod b [resp429Retry2, resp200Empty]
        = some ⟨.ok (.CgAllCoins []), b + SLEEP_BETWEEN_REQUESTS_STEP_MS, [3],
            [⟨"https://h/p", fixedRequestHeaders, ""⟩,
             ⟨"https://h/p", fixedRequestHeaders, ""⟩]⟩) := by
  constructor
  · intro m b r rest uri n hc ht
    simp [request, hc, ht]
  · intro b
    rfl

/-- Witness for C1: the concrete two-response scenario, through the general
step statement, ends in success with the backoff raised by one step and the
3-second sleep (`2 + 1`) recorded. -/
theorem request_banned_known_duration_witness :
    request allCoinsScenarioMethod 0 [resp429Retry2, resp200Empty]
      = some ⟨.ok (.CgAllCoins []), 0 + SLEEP_BETWEEN_REQUESTS_STEP_MS, [3],
          [⟨"https://h/p", fixedRequestHeaders, ""⟩,
           ⟨"https://h/p", fixedRequestHeaders, ""⟩]⟩ :=
  (request_banned_known_duration.1 allCoinsScenarioMethod 0 resp429Retry2 [resp200Empty]
    "https://h/p" 2 rfl rfl).trans rfl

/-- C2 -- only a `Banned` classification with a known duration re-enters
another attempt: a compile failure is returned immediately; any response
whose classification is not `Banned (some _)` makes the run independent of
the remaining trace, with the backoff counter and sleep list untouched; in
particular a 429 with no `retry-after` header yields the fatal
`Banned for unknown time` error without consuming further responses; and a
classified non-retry error is surfaced verbatim to the caller. -/
theorem request_only_banned_retries :
    (∀ (m : RestApiMethod) (b : Nat) (r : HttpResponse) (rest : List HttpResponse) (e : String),
      compile_uri m = some (.error e) →
      request m b (r :: rest) = some ⟨.error e, b, [], []⟩)
    ∧ (∀ (m : RestApiMethod) (b : Nat) (r : HttpResponse) (rest : List HttpResponse),
      (∀ n, m.transform_response r.status r.body r.headers
          ≠ some (.error (.ValidateResponseError (.Banned (some n))))) →
      request m b (r :: rest) = request m b [r]
      ∧ ∀ res, request m b (r :: rest) = some res → res.backoff = b ∧ res.sleeps = [])
    ∧ (∀ (m : RestApiMethod) (b : Nat) (r : HttpResponse) (rest : List HttpResponse)
        (uri : String) (ve : ValidateResponseError),
      compile_uri m = some (.ok uri) →
      m.transform_response r.status r.body r.headers
        = some (.error (.ValidateResponseError ve)) →
      (ve = .Banned none →
        request m b (r :: rest)
          = some ⟨.error ("Banned for unknown time: "
                ++ (ResponseTransformerError.ValidateResponseError ve).display),
              b, [], [⟨uri, fixedRequestHeaders, ""⟩]⟩)
      ∧ ((∀ s, ve ≠ .Banned s) →
        request m b (r :: rest)
          = some ⟨.error ("Unhandled Validate Response Error: "
                ++ (ResponseTransformerError.ValidateResponseError ve).display),
              b, [], [⟨uri, fixedRequestHeaders, ""⟩]⟩))
    ∧ (∀ (b : Nat) (rest : List HttpResponse),
      request allCoinsScenarioMethod b (resp429NoHeader :: rest)
        = some ⟨.error ("Banned for unknown time: "
              ++ "ResponseTransformerError::ValidateResponseError ValidateResponseError::Banned"),
            b, [], [⟨"https://h/p", fixedRequestHeaders, ""⟩]⟩) := by
  refine ⟨?_, ?_, ?_, ?_⟩
  · intro m b r rest e hc
    simp [request, hc]
  · intro m b r rest h
    cases hc : compile_uri m with
    | none =>
      refine ⟨by simp [request, hc], fun res hres => ?_⟩
      simp [request, hc] at hres
    | some res0 =>
      cases res0 with
      | error e =>
        refine ⟨by simp [request, hc], fun res hres => ?_⟩
        simp [request, hc] at hres
        rw [← hres]
        exact ⟨rfl, rfl⟩
      | ok uri =>
        cases ht : m.transform_response r.status r.body r.headers with
        | none =>
          refine ⟨by simp [request, hc, ht], fun res hres => ?_⟩
          simp [request, hc, ht] at hres
        | some t =>
          cases t with
          | ok x =>
            refine ⟨by simp [request, hc, ht], fun res hres => ?_⟩
            simp [request, hc, ht] at hres
            rw [← hres]
            exact ⟨rfl, rfl⟩
          | error e =>
            cases e with
            | ValidateResponseError ve =>
              cases ve with
              | Banned seconds =>
                cases seconds with
                | none =>
                  refine ⟨by simp [request, hc, ht], fun res hres => ?_⟩
                  simp [request, hc, ht] at hres
                  rw [← hres]
                  exact ⟨rfl, rfl⟩
                | some n => exact absurd ht (h n)
              | FailToParse msg =>
                refine ⟨by simp [request, hc, ht], fun res hres => ?_⟩
                simp [request, hc, ht] at hres
                rw [← hres]
                exact ⟨rfl, rfl⟩
              | InnerError msg =>
                refine ⟨by simp [request, hc, ht], fun res hres => ?_⟩
                simp [request, hc, ht] at hres
                rw [← hres]
                exact ⟨rfl, rfl⟩
              | KeyExpired =>
                refine ⟨by simp [request, hc, ht], fun res hres => ?_⟩
                simp [request, hc, ht] at hres
                rw [← hres]
                exact ⟨rfl, rfl⟩
              | UnexpectedResponseCode c =>
                refine ⟨by simp [request, hc, ht], fun res hres => ?_⟩
                simp [request, hc, ht] at hres
                rw [← hres]
                exact ⟨rfl, rfl⟩
  · intro m b r rest uri ve hc ht
    constructor
    · intro hve
      subst hve
      simp [request, hc, ht]
    · intro hve
      cases ve with
      | Banned s => exact absurd rfl (hve s)
      | FailToParse msg => simp [request, hc, ht]
      | InnerError msg => simp [request, hc, ht]
      | KeyExpired => simp [request, hc, ht]
      | UnexpectedResponseCode c => simp [request, hc, ht]
  · intro b rest
    rfl

/-- Witness for C2: on the 429-without-header scenario the run never
consumes the rest of the trace: its outcome equals the single-response run. -/
theorem request_only_banned_retries_witness :
    request allCoinsScenarioMethod 0 [resp429NoHeader, resp200Empty]
      = request allCoinsScenarioMethod 0 [resp429NoHeader] := by
  have hne : ∀ n, allCoinsScenarioMethod.transform_response resp429NoHeader.status
      resp429NoHeader.body resp429NoHeader.headers
      ≠ some (.error (.ValidateResponseError (.Banned (some n)))) := by
    intro n hcon
    have hval : (some (.error (.ValidateResponseError (.Banned none)))
        : Option (Except ResponseTransformerError MethodResponse))
        = some (.error (.ValidateResponseError (.Banned (some n)))) := hcon
    simp at hval
  exact (request_only_banned_retries.2.1 allCoinsScenarioMethod 0 resp429NoHeader
    [resp200Empty] hne).1

/-- The scenario descriptor with a `configure_request` hook present that
would redirect the call to another base URL, were it ever invoked. -/
def hookedMethod : RestApiMethod :=
  { allCoinsScenarioMethod with configure_request := some (.SetBaseUrl "https://other") }

/-- C9 counterexample -- the claim says every attempt applies the
descriptor's `configure_request` hook whenever one is present; on
`hookedMethod` the hook is present and would change the compiled URI to
`https://other/p`, yet the executor sends `https://h/p`: the hook is not
applied. -/
theorem request_hook_not_applied_counterexample :
    hookedMethod.configure_request = some (.SetBaseUrl "https://other")
    ∧ request hookedMethod 0 [resp200Empty]
        = some ⟨.ok (.CgAllCoins []), 0, [], [⟨"https://h/p", fixedRequestHeaders, ""⟩]⟩
    ∧ compile_uri (applyConfigurator (.SetBaseUrl "https://other") hookedMethod)
        = some (.ok "https://other/p")
    ∧ ("https://h/p" : String) ≠ "https://other/p" := by
  refine ⟨rfl, rfl, rfl, by decide⟩

/-- C9 amended -- on every attempt the executor builds the outbound request
by attaching the fixed identifying `User-Agent` header and an empty body to
the compiled URI and sends it via the injected transport; the
`configure_request` hook, although stored in the descriptor, is never
invoked: the run is unchanged by replacing it. -/
theorem request_fixed_header_no_hook :
    (∀ (m : RestApiMethod) (b : Nat) (rs : List HttpResponse) (res : ExecResult),
      request m b rs = some res →
      ∀ s ∈ res.sent, s.headers = fixedRequestHeaders ∧ s.body = "")
    ∧ (∀ (m : RestApiMethod) (f : Option RequestConfigurator) (b : Nat)
        (rs : List HttpResponse),
      request { m with configure_request := f } b rs = request m b rs) := by
  constructor
  · intro m b rs
    induction rs generalizing b with
    | nil =>
      intro res hres
      simp [request] at hres
    | cons r rest ih =>
      intro res hres
      cases hc : compile_uri m with
      | none => simp [request, hc] at hres
      | some res0 =>
        cases res0 with
        | error e =>
          simp [request, hc] at hres
          rw [← hres]
          intro s hs
          simp at hs
        | ok uri =>
          cases ht : m.transform_response r.status r.body r.headers with
          | none => simp [request, hc, ht] at hres
          | some t =>
            cases t with
            | ok x =>
              simp [request, hc, ht] at hres
              rw [← hres]
              intro s hs
              simp at hs
              rw [hs]
              exact ⟨rfl, rfl⟩
            | error e =>
              cases e with
              | ValidateResponseError ve =>
                cases ve with
                | Banned seconds =>
                  cases seconds with
                  | none =>
                    simp [request, hc, ht] at hres
                    rw [← hres]
                    intro s hs
                    simp at hs
                    rw [hs]
                    exact ⟨rfl, rfl⟩
                  | some n =>
                    rw [request, hc, ht] at hres
                    rcases Option.map_eq_some'.mp hres with ⟨res', hres', hmap⟩
                    rw [← hmap]
                    intro s hs
                    rcases List.mem_cons.mp hs with rfl | hs'
                    · exact ⟨rfl, rfl⟩
                    · exact ih (b + SLEEP_BETWEEN_REQUESTS_STEP_MS) res' hres' s hs'
                | FailToParse msg =>
                  simp [request, hc, ht] at hres
                  rw [← hres]
                  intro s hs
                  simp at hs
                  rw [hs]
                  exact ⟨rfl, rfl⟩
                | InnerError msg =>
                  simp [request, hc, ht] at hres
                  rw [← hres]
                  intro s hs
                  simp at hs
                  rw [hs]
                  exact ⟨rfl, rfl⟩
                | KeyExpired =>
                  simp [request, hc, ht] at hres
                  rw [← hres]
                  intro s hs
                  simp at hs
                  rw [hs]
                  exact ⟨rfl, rfl⟩
                | UnexpectedResponseCode c =>
                  simp [request, hc, ht] at hres
                  rw [← hres]
                  intro s hs
                  simp at hs
                  rw [hs]
                  exact ⟨rfl, rfl⟩
  · intro m f b rs
    induction rs generalizing b with
    | nil => rfl
    | cons r rest ih =>
      have hc : compile_uri { m with configure_request := f } = compile_uri m := rfl
      have ht : ({ m with configure_request := f } : RestApiMethod).transform_response
          = m.transform_response := rfl
      simp only [request, hc, ht, ih]

/-- Witness for C9: in the concrete successful run the one sent request
carries the fixed header and an empty body. -/
theorem request_fixed_header_no_hook_witness :
    (⟨"https://h/p", fixedRequestHeaders, ""⟩ : SentRequest).headers = fixedRequestHeaders
    ∧ (⟨"https://h/p", fixedRequestHeaders, ""⟩ : SentRequest).body = "" :=
  request_fixed_header_no_hook.1 allCoinsScenarioMethod 0 [resp200Empty]
    ⟨.ok (.CgAllCoins []), 0, [], [⟨"https://h/p", fixedRequestHeaders, ""⟩]⟩ rfl
    ⟨"https://h/p", fixedRequestHeaders, ""⟩ (by simp)
